import Mathlib

/-!
# Verification of the toyagent / pycodex agent orchestration core

Shallow embedding of the dispatch, approval and driver logic of
`toyagent.py` / `toyagent_tools.py` and `pycodex.py` / `pycodex_tools.py`,
with theorems settling the specification's claims about them.

Conventions of the embedding:
* Python dicts that flow through the dispatcher are modelled as ordered
  association lists of JSON values (`JObj`), matching Python's
  insertion-ordered dicts.
* `json.dumps` with default separators is modelled by `JVal.dumps`.
* I/O oracles (subprocess outcomes, HTTP outcomes, operator keystrokes,
  approval decisions) are explicit parameters; each executor is a pure
  function of its arguments and its oracle.
-/

namespace ToyAgentSpec

/-- A JSON value, as produced by Python's `json.loads` on a tool-call
argument payload or placed in a tool-result dict.  The dispatch and
executor paths modelled here only ever store and inspect scalar values
(command strings, paths, codes, flags, timeouts, error messages); the
dispatcher tests string-ness (`isinstance(x, str)`) and serializes flat
dicts, so scalar leaves suffice for a faithful embedding of those paths. -/
inductive JVal where
  | str (s : String)
  | num (n : Int)
  | bool (b : Bool)
  | null
deriving DecidableEq, Repr

/-- An argument object / result dict: ordered key-value pairs. -/
abbrev JObj := List (String × JVal)

/-- `d.get(k)`: first value stored under key `k`, if any. -/
def getKey (o : JObj) (k : String) : Option JVal :=
  match o with
  | [] => none
  | (k', v) :: rest => if k' = k then some v else getKey rest k

/-- `k in d` on a Python dict. -/
def hasKey (o : JObj) (k : String) : Bool :=
  match o with
  | [] => false
  | (k', _) :: rest => k' = k || hasKey rest k

/-- `d[k] = v`: replace the value under `k` in place if present (Python
keeps the key's original position), else append the new pair. -/
def setKey (o : JObj) (k : String) (v : JVal) : JObj :=
  match o with
  | [] => [(k, v)]
  | (k', v') :: rest =>
      if k' = k then (k, v) :: rest else (k', v') :: setKey rest k v

/-- Escape one character as inside a JSON string literal
(`json.dumps` default: ensure_ascii escapes are not modelled beyond the
mandatory ones; the claims never compare dumps of exotic strings). -/
def escapeChar (c : Char) : String :=
  if c = '"' then "\\\""
  else if c = '\\' then "\\\\"
  else if c = '\n' then "\\n"
  else if c = '\t' then "\\t"
  else if c = '\r' then "\\r"
  else String.singleton c

/-- A JSON string literal. -/
def dumpStr (s : String) : String :=
  "\"" ++ String.join (s.toList.map escapeChar) ++ "\""

/-- `json.dumps` of one scalar value, default separators. -/
def JVal.dumps : JVal → String
  | .str s => dumpStr s
  | .num n => toString n
  | .bool b => if b then "true" else "false"
  | .null => "null"

/-- Comma-joined `"key": value` fields of `json.dumps` of a dict. -/
def dumpsFields : List (String × JVal) → String
  | [] => ""
  | [(k, v)] => dumpStr k ++ ": " ++ v.dumps
  | (k, v) :: f :: rest => dumpStr k ++ ": " ++ v.dumps ++ ", " ++ dumpsFields (f :: rest)

/-- `json.dumps` of a tool-result / argument dict (Python's default
separators `", "` and `": "`). -/
def dumpsObj (o : JObj) : String := "\x7b" ++ dumpsFields o ++ "\x7d"

/-! ## The Approval Gate (`ask_for_approval`)

Both `toyagent.py` (lines 90–117) and `pycodex.py` (lines 91–115) run the
same decision loop over operator keystrokes: read a line, lowercase and
strip it; `"y"` approves, `"n"` or `""` denies, anything else re-prompts;
`EOFError` / `KeyboardInterrupt` denies.  We model the stream of `input()`
outcomes as a list of events. -/

/-- One outcome of a blocking `input()` call at the approval prompt. -/
inductive InputEvent where
  | line (s : String)
  | eof
  | interrupt
deriving DecidableEq, Repr

/-- Python's `str.lower()` (ASCII case mapping, which is all the
operator tokens involved use). -/
def pyLower (s : String) : String := String.mk (s.toList.map Char.toLower)

/-- Python's `str.strip()`: drop leading and trailing whitespace. -/
def pyStrip (s : String) : String :=
  String.mk (((s.toList.dropWhile Char.isWhitespace).reverse.dropWhile Char.isWhitespace).reverse)

/-- Python's `str.startswith(p)`. -/
def pyStartsWith (s p : String) : Bool :=
  s.toList.take p.toList.length == p.toList

/-- Python's `s.lower().strip()`. -/
def normTok (s : String) : String := pyStrip (pyLower s)

/-- The approval-prompt loop of `toyagent.ask_for_approval` (lines
108–117); `pycodex.ask_for_approval` (lines 100–115) differs only in
catching `EOFError` and `KeyboardInterrupt` in separate clauses with the
same result.  An exhausted event list stands for a closed input stream
(the next `input()` would raise `EOFError`). -/
def ask_for_approval : List InputEvent → Bool
  | [] => false
  | .eof :: _ => false
  | .interrupt :: _ => false
  | .line s :: rest =>
      let r := normTok s
      if r = "y" then true
      else if r = "n" ∨ r = "" then false
      else ask_for_approval rest

/-! ## Tool Dispatcher

The per-call dispatch logic is the body of the `for tool_call in
tool_calls` loop of `process_api_response` (`toyagent.py` lines 158–213,
`pycodex.py` lines 151–228).  The executor's behaviour and the approval
gate's decision are oracles: `ExecOutcome` is what `executor_func(**args)`
does, and `gate` is what `ask_for_approval(desc, details)` returns. -/

/-- The outcome of invoking a tool executor: a returned result dict or a
raised exception (whose `str` is recorded). -/
inductive ExecOutcome where
  | ok (result : JObj)
  | exn (msg : String)
deriving DecidableEq, Repr

/-- Observable outcome of dispatching one tool call: the `tool_content`
dict, whether the executor function was invoked, and the
`(action_description, details)` pair given to `ask_for_approval` when the
gate was consulted. -/
structure DispatchResult where
  content : JObj
  invoked : Bool
  prompt : Option (String × JVal)
deriving DecidableEq, Repr

/-- Python truthiness of the scalar values that appear in result dicts. -/
def pyFalsy : JVal → Bool
  | .str s => s = ""
  | .num n => n = 0
  | .bool b => !b
  | .null => true

/-- `if "exit_code" not in tool_content: tool_content["exit_code"] = c`. -/
def addExitIfAbsent (o : JObj) (c : Int) : JObj :=
  if hasKey o "exit_code" then o else o ++ [("exit_code", JVal.num c)]

/-- `command.split()[0]` of the `FileNotFoundError` handler.  (On an
all-whitespace command the source would raise `IndexError` there, a path
no claim touches; `""` stands in for that corner.) -/
def firstWord (s : String) : String :=
  (((s.split (fun c => c.isWhitespace)).filter (fun w => w ≠ "")).headD "")

namespace Toyagent

/-- Keys of `toyagent_tools.TOOL_EXECUTORS` (lines 307–317). -/
def TOOL_EXECUTORS_keys : List String :=
  ["execute_shell_command", "read_file", "write_file", "copy_file",
   "list_directory", "create_directory", "fetch_web_page", "ask_user",
   "execute_python_code"]

/-- `toyagent_tools.DANGEROUS_TOOLS` (lines 319–326). -/
def DANGEROUS_TOOLS : List String :=
  ["execute_shell_command", "write_file", "copy_file", "create_directory",
   "fetch_web_page", "execute_python_code"]

/-- `toyagent.DANGEROUS_TOOL_INFO` (lines 122–129):
`(name, desc, detail_arg)`. -/
def DANGEROUS_TOOL_INFO : List (String × String × String) :=
  [("execute_shell_command", "Execute Shell Command", "command"),
   ("write_file", "Write to File", "path"),
   ("copy_file", "Copy File", "destination_path"),
   ("create_directory", "Create Directory", "path"),
   ("fetch_web_page", "Fetch Web Page", "url"),
   ("execute_python_code", "Execute Python Code", "code")]

/-- `DANGEROUS_TOOL_INFO.get(function_name, {})`, yielding the
`(desc, detail_arg)` entries when the name is present. -/
def lookupInfo (function_name : String) : Option (String × String) :=
  (DANGEROUS_TOOL_INFO.find? (fun e => e.1 = function_name)).map (fun e => e.2)

/-- The approval-request computation of `toyagent.process_api_response`
lines 175–186: action description and the details value shown to
`ask_for_approval`. -/
def approvalRequest (function_name : String) (parsed_args : JObj) : String × JVal :=
  let info := lookupInfo function_name
  let action_desc := match info with
    | some (d, _) => d
    | none => "Execute " ++ function_name
  let detail_arg_name : Option String := info.map (fun e => e.2)
  let approval_details : JVal :=
    match detail_arg_name with
    | some k => (getKey parsed_args k).getD (JVal.str "<missing detail>")
    | none => JVal.str (dumpsObj parsed_args)
  let details_to_show : JVal :=
    if function_name = "execute_python_code" then approval_details
    else match approval_details with
      | .str _ => approval_details
      | _ => JVal.str (dumpsObj parsed_args)
  (action_desc, details_to_show)

/-- One iteration of the dispatch loop of `toyagent.process_api_response`
(lines 158–206): registry lookup, argument-parse check, approval gate,
execution, and envelope normalization.  `parsed_args = none` models a
`json.JSONDecodeError` in `print_tool_call_request`. -/
def dispatchToolCall (gate : String → JVal → Bool) (execB : JObj → ExecOutcome)
    (function_name : String) (parsed_args : Option JObj) : DispatchResult :=
  if function_name ∉ TOOL_EXECUTORS_keys then
    { content := [("error", JVal.str ("Unsupported function: " ++ function_name)),
                  ("exit_code", JVal.num (-6))],
      invoked := false, prompt := none }
  else match parsed_args with
    | none =>
        { content := [("error", JVal.str "Invalid arguments provided to tool."),
                      ("exit_code", JVal.num (-5))],
          invoked := false, prompt := none }
    | some args =>
        let req := approvalRequest function_name args
        let prompt? : Option (String × JVal) :=
          if function_name ∈ DANGEROUS_TOOLS then some req else none
        let approved : Bool :=
          if function_name ∈ DANGEROUS_TOOLS then gate req.1 req.2 else true
        if approved then
          match execB args with
          | .ok res => { content := res, invoked := true, prompt := prompt? }
          | .exn msg =>
              { content := addExitIfAbsent
                  [("error", JVal.str ("Tool execution failed: " ++ msg))] (-7),
                invoked := true, prompt := prompt? }
        else
          { content := addExitIfAbsent [("error", JVal.str "Action denied by user.")] (-4),
            invoked := false, prompt := prompt? }

end Toyagent

namespace Pycodex

/-- Keys of `pycodex_tools.TOOL_EXECUTORS` (lines 436–445). -/
def TOOL_EXECUTORS_keys : List String :=
  ["shell_exec", "read_file", "write_file", "copy_file", "list_directory",
   "create_directory", "fetch_web_page", "ask_user"]

/-- `pycodex_tools.DANGEROUS_TOOLS` (lines 448–454). -/
def DANGEROUS_TOOLS : List String :=
  ["shell_exec", "write_file", "copy_file", "create_directory", "fetch_web_page"]

/-- The hard-coded approval chain of `pycodex.process_api_response`
lines 174–188 (note: `copy_file` is dangerous but has no branch, so it
falls to the `else` arm). -/
def approvalRequest (function_name : String) (parsed_args : JObj) : String × JVal :=
  if function_name = "shell_exec" then
    ("Execute Shell Command", (getKey parsed_args "command").getD (JVal.str "<missing command>"))
  else if function_name = "write_file" then
    ("Write to File", (getKey parsed_args "path").getD (JVal.str "<missing path>"))
  else if function_name = "create_directory" then
    ("Create Directory", (getKey parsed_args "path").getD (JVal.str "<missing path>"))
  else if function_name = "fetch_web_page" then
    ("Fetch Web Page", (getKey parsed_args "url").getD (JVal.str "<missing url>"))
  else
    ("Execute " ++ function_name, JVal.str (dumpsObj parsed_args))

/-- One iteration of the dispatch loop of `pycodex.process_api_response`
(lines 151–228): executor lookup first, then the parse check, approval,
execution and normalization. -/
def dispatchToolCall (gate : String → JVal → Bool) (execB : JObj → ExecOutcome)
    (function_name : String) (parsed_args : Option JObj) : DispatchResult :=
  if function_name ∈ TOOL_EXECUTORS_keys then
    match parsed_args with
    | none =>
        { content := [("error", JVal.str "Invalid arguments provided to tool."),
                      ("exit_code", JVal.num (-5))],
          invoked := false, prompt := none }
    | some args =>
        let req := approvalRequest function_name args
        let prompt? : Option (String × JVal) :=
          if function_name ∈ DANGEROUS_TOOLS then some req else none
        let approved : Bool :=
          if function_name ∈ DANGEROUS_TOOLS then gate req.1 req.2 else true
        if approved then
          match execB args with
          | .ok res => { content := res, invoked := true, prompt := prompt? }
          | .exn msg =>
              { content := addExitIfAbsent
                  [("error", JVal.str ("Tool execution failed: " ++ msg))] (-7),
                invoked := true, prompt := prompt? }
        else
          { content := addExitIfAbsent [("error", JVal.str "Action denied by user.")] (-4),
            invoked := false, prompt := prompt? }
  else
    { content := [("error", JVal.str ("Unsupported function: " ++ function_name)),
                  ("exit_code", JVal.num (-6))],
      invoked := false, prompt := none }

end Pycodex

/-! ## Conversation Driver

History messages and `process_api_response` / `call_api` / the `run_loop`
iteration of both scripts.  A model-issued tool call carries the parse
result of its raw JSON argument payload (`none` = `json.JSONDecodeError`
in `print_tool_call_request`, which runs before any dispatch decision). -/

/-- A model-issued tool-call request (`tool_call.id`,
`tool_call.function.name`, and the outcome of
`json.loads(tool_call.function.arguments)`). -/
structure ToolCall where
  id : String
  name : String
  args : Option JObj
deriving DecidableEq, Repr

/-- One conversation-history entry. -/
inductive Message where
  | system (content : String)
  | user (content : String)
  | assistant (content : Option String) (tool_calls : List ToolCall)
  | tool (tool_call_id : String) (name : String) (content : String)
deriving DecidableEq, Repr

/-- The assistant message of one API response
(`response.choices[0].message`). -/
structure AssistantMsg where
  content : Option String
  tool_calls : List ToolCall
deriving DecidableEq, Repr

namespace Toyagent

/-- `toyagent.process_api_response` (lines 145–216): appends the assistant
message; with no tool calls returns `False`; otherwise dispatches each
call in order, appends one `tool` message per call (`history.extend`) and
returns `True`. -/
def process_api_response (gate : String → JVal → Bool)
    (execB : String → JObj → ExecOutcome)
    (history : List Message) (response_message : AssistantMsg) :
    List Message × Bool :=
  let history1 := history ++ [Message.assistant response_message.content response_message.tool_calls]
  if response_message.tool_calls.isEmpty then (history1, false)
  else
    let tool_results := response_message.tool_calls.map (fun tc =>
      let d := dispatchToolCall gate (execB tc.name) tc.name tc.args
      Message.tool tc.id tc.name (dumpsObj d.content))
    (history1 ++ tool_results, true)

/-- The possible outcomes of `client.chat.completions.create` inside
`toyagent.call_api` (lines 131–143) / `pycodex.call_api` (lines 119–139). -/
inductive ApiOutcome where
  | success (resp : AssistantMsg)
  | connectionError (msg : String)
  | rateLimitError (msg : String)
  | authenticationError (msg : String)
  | statusError (msg : String)
  | otherError (msg : String)
deriving DecidableEq, Repr

/-- `toyagent.call_api`: the response on success; every handled error
class prints a diagnostic and falls through to `return None`. -/
def call_api : ApiOutcome → Option AssistantMsg
  | .success r => some r
  | .connectionError _ => none
  | .rateLimitError _ => none
  | .authenticationError _ => none
  | .statusError _ => none
  | .otherError _ => none

/-- One iteration of `toyagent.run_loop` (lines 233–241): call the API;
on a response let `process_api_response` decide whether another call is
needed, on `None` set `needs_another_call = False` with the history
untouched. -/
def run_loop_iteration (gate : String → JVal → Bool)
    (execB : String → JObj → ExecOutcome)
    (history : List Message) (outcome : ApiOutcome) : List Message × Bool :=
  match call_api outcome with
  | some response => process_api_response gate execB history response
  | none => (history, false)

end Toyagent

namespace Pycodex

/-- `pycodex.process_api_response` (lines 141–236): identical driver
shape — append the assistant message; if it has tool calls, dispatch each
in order, append one `tool` message per call, return `True`; else return
`False`. -/
def process_api_response (gate : String → JVal → Bool)
    (execB : String → JObj → ExecOutcome)
    (history : List Message) (response_message : AssistantMsg) :
    List Message × Bool :=
  let history1 := history ++ [Message.assistant response_message.content response_message.tool_calls]
  if response_message.tool_calls.isEmpty then (history1, false)
  else
    let tool_results := response_message.tool_calls.map (fun tc =>
      let d := dispatchToolCall gate (execB tc.name) tc.name tc.args
      Message.tool tc.id tc.name (dumpsObj d.content))
    (history1 ++ tool_results, true)

/-- `pycodex.call_api` (lines 119–139): same error handling as
`toyagent.call_api`. -/
def call_api : Toyagent.ApiOutcome → Option AssistantMsg
  | .success r => some r
  | .connectionError _ => none
  | .rateLimitError _ => none
  | .authenticationError _ => none
  | .statusError _ => none
  | .otherError _ => none

/-- One iteration of the `while needs_another_call` loop of
`pycodex.run_interactive` / `run_single_pass` (lines 272–279, 310–318). -/
def run_loop_iteration (gate : String → JVal → Bool)
    (execB : String → JObj → ExecOutcome)
    (history : List Message) (outcome : Toyagent.ApiOutcome) :
    List Message × Bool :=
  match call_api outcome with
  | some response => process_api_response gate execB history response
  | none => (history, false)

end Pycodex

/-! ## Tool executors with timeouts (`toyagent_tools.py`, `pycodex_tools.py`)

Each executor is embedded as a pure function of its declared arguments
plus oracles for the external effects: `SubprocOutcome` for
`subprocess.run`, `HttpOutcome` for `requests.get`, the working-directory
check, and `sys.executable`.  The returned `JObj` is the result dict; for
`fetch_web_page` a second component records whether `requests.get` was
reached. -/

/-- What `subprocess.run` did: completed (captured stdout/stderr and the
return code), raised `TimeoutExpired`, raised `FileNotFoundError`, or
raised some other exception (its `str`). -/
inductive SubprocOutcome where
  | completed (stdout stderr : String) (returncode : Int)
  | timedOut
  | fileNotFound
  | otherError (msg : String)
deriving DecidableEq, Repr

/-- What `requests.get` + `raise_for_status` did: a response arrived
(status, body text, and the `str` of the `HTTPError` that
`raise_for_status` raises when the status is 4xx/5xx), the request timed
out, `requests.get` raised another `RequestException` (possibly carrying
a response), or some other exception escaped. -/
inductive HttpOutcome where
  | response (status : Int) (text : String) (errStr : String)
  | timeout
  | requestExn (msg : String) (respStatus : Option Int)
  | otherExn (msg : String)
deriving DecidableEq, Repr

namespace Toyagent

/-- `toyagent_tools.execute_shell_command` (lines 116–141). -/
def execute_shell_command (command : String) (working_directory : Option String)
    (timeout_seconds : Int) (osCwd : String) (isDir : String → Bool)
    (run : SubprocOutcome) : JObj :=
  let result : JObj :=
    [("stdout", JVal.str ""), ("stderr", JVal.str ""),
     ("exit_code", JVal.null), ("error", JVal.null)]
  let effective_cwd := match working_directory with
    | some s => if s = "" then osCwd else s
    | none => osCwd
  if ¬ isDir effective_cwd then
    setKey (setKey result "error"
      (JVal.str ("Working directory not found: " ++ effective_cwd))) "exit_code" (JVal.num (-2))
  else
    match run with
    | .completed out err rc =>
        setKey (setKey (setKey result "stdout" (JVal.str (pyStrip out)))
          "stderr" (JVal.str (pyStrip err))) "exit_code" (JVal.num rc)
    | .timedOut =>
        setKey (setKey result "error"
          (JVal.str ("Timeout (" ++ toString timeout_seconds ++ "s)"))) "exit_code" (JVal.num (-1))
    | .fileNotFound =>
        setKey (setKey result "error"
          (JVal.str ("Command/Executable not found: " ++ firstWord command))) "exit_code" (JVal.num (-2))
    | .otherError msg =>
        let r := setKey (setKey result "error"
          (JVal.str ("Execution failed: " ++ msg))) "exit_code" (JVal.num (-3))
        if pyFalsy ((getKey r "stderr").getD JVal.null) then setKey r "stderr" (JVal.str msg) else r

/-- `toyagent_tools.execute_python_code` (lines 269–305); `pyExe` is
`sys.executable`. -/
def execute_python_code (code : String) (timeout_seconds : Int) (pyExe : String)
    (run : SubprocOutcome) : JObj :=
  let result : JObj := [("stdout", JVal.null), ("stderr", JVal.null), ("error", JVal.null)]
  if code = "" then setKey result "error" (JVal.str "No code provided to execute.")
  else
    match run with
    | .completed out err rc =>
        let r := setKey (setKey result "stdout" (JVal.str (pyStrip out))) "stderr" (JVal.str (pyStrip err))
        if rc ≠ 0 ∧ pyStrip err = "" then
          setKey r "stderr" (JVal.str ("Python process exited with code " ++ toString rc))
        else r
    | .timedOut =>
        setKey result "error"
          (JVal.str ("Python code execution timed out after " ++ toString timeout_seconds ++ " seconds."))
    | .fileNotFound =>
        setKey result "error" (JVal.str ("Python executable not found: " ++ pyExe))
    | .otherError msg =>
        let r := setKey result "error" (JVal.str ("Failed to execute Python code: " ++ msg))
        if pyFalsy ((getKey r "stderr").getD JVal.null) then setKey r "stderr" (JVal.str msg) else r

/-- `toyagent_tools.fetch_web_page` (lines 234–256).  The second
component is whether `requests.get` was reached. -/
def fetch_web_page (url : String) (timeout_seconds : Int)
    (requestsAvailable : Bool) (http : HttpOutcome) : JObj × Bool :=
  if ¬ requestsAvailable then
    ([("content", JVal.null), ("status_code", JVal.null),
      ("error", JVal.str "'requests' library not installed.")], false)
  else if ¬ (pyStartsWith url "http://" ∨ pyStartsWith url "https://") then
    ([("content", JVal.null), ("status_code", JVal.null),
      ("error", JVal.str "URL must start with http:// or https://")], false)
  else
    let result : JObj := [("content", JVal.null), ("status_code", JVal.null), ("error", JVal.null)]
    let final := match http with
      | .response status text errStr =>
          let r := setKey result "status_code" (JVal.num status)
          if 400 ≤ status then
            let r := setKey r "error"
              (JVal.str ("Fetch failed: " ++ errStr ++ " (Status: " ++ toString status ++ ")"))
            setKey r "status_code" (JVal.num status)
          else
            setKey r "content" (JVal.str text)
      | .timeout =>
          setKey result "error" (JVal.str ("Timeout (" ++ toString timeout_seconds ++ "s)"))
      | .requestExn msg respStatus =>
          let status_info := match respStatus with
            | some s => " (Status: " ++ toString s ++ ")"
            | none => ""
          let r := setKey result "error" (JVal.str ("Fetch failed: " ++ msg ++ status_info))
          (match respStatus with
           | some s => setKey r "status_code" (JVal.num s)
           | none => r)
      | .otherExn msg =>
          setKey result "error" (JVal.str ("Unexpected fetch error: " ++ msg))
    (final, true)

end Toyagent

namespace Pycodex

/-- `pycodex_tools.execute_shell_command` (lines 222–259). -/
def execute_shell_command (command : String) (working_directory : Option String)
    (timeout_seconds : Int) (osCwd : String) (isDir : String → Bool)
    (run : SubprocOutcome) : JObj :=
  let result : JObj :=
    [("stdout", JVal.str ""), ("stderr", JVal.str ""),
     ("exit_code", JVal.null), ("error", JVal.null)]
  let effective_cwd := match working_directory with
    | some s => if s = "" then osCwd else s
    | none => osCwd
  if ¬ isDir effective_cwd then
    setKey (setKey result "error"
      (JVal.str ("Working directory not found: " ++ effective_cwd))) "exit_code" (JVal.num (-2))
  else
    match run with
    | .completed out err rc =>
        setKey (setKey (setKey result "stdout" (JVal.str (pyStrip out)))
          "stderr" (JVal.str (pyStrip err))) "exit_code" (JVal.num rc)
    | .timedOut =>
        setKey (setKey result "error"
          (JVal.str ("Command timed out after " ++ toString timeout_seconds ++ " seconds.")))
          "exit_code" (JVal.num (-1))
    | .fileNotFound =>
        setKey (setKey result "error"
          (JVal.str ("Command not found or invalid: " ++ firstWord command))) "exit_code" (JVal.num (-2))
    | .otherError msg =>
        let r := setKey (setKey result "error"
          (JVal.str ("Failed to execute command: " ++ msg))) "exit_code" (JVal.num (-3))
        if pyFalsy ((getKey r "stderr").getD JVal.null) then setKey r "stderr" (JVal.str msg) else r

/-- `pycodex_tools.fetch_web_page` (lines 394–418). -/
def fetch_web_page (url : String) (timeout_seconds : Int)
    (requestsAvailable : Bool) (http : HttpOutcome) : JObj × Bool :=
  let result : JObj := [("content", JVal.null), ("status_code", JVal.null), ("error", JVal.null)]
  if ¬ requestsAvailable then
    (setKey result "error" (JVal.str "The 'requests' library is not installed."), false)
  else if ¬ (pyStartsWith url "http://" ∨ pyStartsWith url "https://") then
    (setKey result "error" (JVal.str "URL must start with http:// or https://"), false)
  else
    let final := match http with
      | .response status text errStr =>
          let r := setKey result "status_code" (JVal.num status)
          if 400 ≤ status then
            let r := setKey r "error"
              (JVal.str ("Failed to fetch URL '" ++ url ++ "': " ++ errStr))
            setKey r "status_code" (JVal.num status)
          else
            setKey r "content" (JVal.str text)
      | .timeout =>
          setKey result "error"
            (JVal.str ("Request timed out after " ++ toString timeout_seconds ++ " seconds."))
      | .requestExn msg respStatus =>
          let r := setKey result "error"
            (JVal.str ("Failed to fetch URL '" ++ url ++ "': " ++ msg))
          (match respStatus with
           | some s => setKey r "status_code" (JVal.num s)
           | none => r)
      | .otherExn msg =>
          setKey result "error"
            (JVal.str ("An unexpected error occurred fetching URL '" ++ url ++ "': " ++ msg))
    (final, true)

end Pycodex

/-! ## Helper lemmas -/

/-- A dispatched dangerous call always consults the gate with
`approvalRequest`'s output, whatever the gate decides and whatever the
executor then does. -/
theorem Toyagent.toyagent_dispatch_prompt_of_dangerous (gate : String → JVal → Bool)
    (execB : JObj → ExecOutcome) (function_name : String) (args : JObj)
    (hk : ¬ function_name ∉ Toyagent.TOOL_EXECUTORS_keys)
    (hd : function_name ∈ Toyagent.DANGEROUS_TOOLS) :
    (Toyagent.dispatchToolCall gate execB function_name (some args)).prompt =
      some (Toyagent.approvalRequest function_name args) := by
  simp only [Toyagent.dispatchToolCall]
  rw [if_neg hk]
  simp only [if_pos hd]
  split
  · cases execB args <;> rfl
  · rfl

/-- Pycodex analogue of `Toyagent.toyagent_dispatch_prompt_of_dangerous`. -/
theorem Pycodex.pycodex_dispatch_prompt_of_dangerous (gate : String → JVal → Bool)
    (execB : JObj → ExecOutcome) (function_name : String) (args : JObj)
    (hk : function_name ∈ Pycodex.TOOL_EXECUTORS_keys)
    (hd : function_name ∈ Pycodex.DANGEROUS_TOOLS) :
    (Pycodex.dispatchToolCall gate execB function_name (some args)).prompt =
      some (Pycodex.approvalRequest function_name args) := by
  simp only [Pycodex.dispatchToolCall]
  rw [if_pos hk]
  simp only [if_pos hd]
  split
  · cases execB args <;> rfl
  · rfl

/-! ## Claims -/

/-- C1: a dangerous tool call whose approval the gate denies yields the
envelope `{error: "Action denied by user.", exit_code: -4}` and the
executor is never invoked; a registered non-dangerous tool is executed
with no approval prompt at all. -/
theorem C1_denied_dangerous_and_prompt_free_safe
    (execB : JObj → ExecOutcome) (name : String) (args : JObj) :
    (name ∈ Toyagent.DANGEROUS_TOOLS →
      ∀ gate : String → JVal → Bool, (∀ d det, gate d det = false) →
        (Toyagent.dispatchToolCall gate execB name (some args)).content =
          [("error", JVal.str "Action denied by user."), ("exit_code", JVal.num (-4))] ∧
        (Toyagent.dispatchToolCall gate execB name (some args)).invoked = false) ∧
    (name ∈ Toyagent.TOOL_EXECUTORS_keys → name ∉ Toyagent.DANGEROUS_TOOLS →
      ∀ gate : String → JVal → Bool,
        (Toyagent.dispatchToolCall gate execB name (some args)).prompt = none ∧
        (Toyagent.dispatchToolCall gate execB name (some args)).invoked = true) ∧
    (name ∈ Pycodex.DANGEROUS_TOOLS →
      ∀ gate : String → JVal → Bool, (∀ d det, gate d det = false) →
        (Pycodex.dispatchToolCall gate execB name (some args)).content =
          [("error", JVal.str "Action denied by user."), ("exit_code", JVal.num (-4))] ∧
        (Pycodex.dispatchToolCall gate execB name (some args)).invoked = false) ∧
    (name ∈ Pycodex.TOOL_EXECUTORS_keys → name ∉ Pycodex.DANGEROUS_TOOLS →
      ∀ gate : String → JVal → Bool,
        (Pycodex.dispatchToolCall gate execB name (some args)).prompt = none ∧
        (Pycodex.dispatchToolCall gate execB name (some args)).invoked = true) := by
  refine ⟨?_, ?_, ?_, ?_⟩
  · intro hmem gate hgate
    fin_cases hmem <;>
      simp +decide [Toyagent.dispatchToolCall, hgate, addExitIfAbsent, hasKey]
  · intro hmem hnd gate
    fin_cases hmem <;>
      first
        | exact absurd (by decide) hnd
        | (cases hexec : execB args <;>
            simp +decide [Toyagent.dispatchToolCall, hexec])
  · intro hmem gate hgate
    fin_cases hmem <;>
      simp +decide [Pycodex.dispatchToolCall, hgate, addExitIfAbsent, hasKey]
  · intro hmem hnd gate
    fin_cases hmem <;>
      first
        | exact absurd (by decide) hnd
        | (cases hexec : execB args <;>
            simp +decide [Pycodex.dispatchToolCall, hexec])

/-- C1 witness: with an always-denying gate, a concrete dangerous call
(`execute_shell_command` / `shell_exec`) is denied with exit code -4 and
never executed, and a concrete safe call (`read_file`) runs unprompted. -/
theorem C1_denied_dangerous_witness :
    ((Toyagent.dispatchToolCall (fun _ _ => false) (fun _ => ExecOutcome.ok [])
        "execute_shell_command" (some [("command", JVal.str "ls")])).content =
      [("error", JVal.str "Action denied by user."), ("exit_code", JVal.num (-4))] ∧
     (Toyagent.dispatchToolCall (fun _ _ => false) (fun _ => ExecOutcome.ok [])
        "execute_shell_command" (some [("command", JVal.str "ls")])).invoked = false) ∧
    ((Toyagent.dispatchToolCall (fun _ _ => false) (fun _ => ExecOutcome.ok [])
        "read_file" (some [("path", JVal.str "a.txt")])).prompt = none ∧
     (Toyagent.dispatchToolCall (fun _ _ => false) (fun _ => ExecOutcome.ok [])
        "read_file" (some [("path", JVal.str "a.txt")])).invoked = true) ∧
    ((Pycodex.dispatchToolCall (fun _ _ => false) (fun _ => ExecOutcome.ok [])
        "shell_exec" (some [("command", JVal.str "ls")])).content =
      [("error", JVal.str "Action denied by user."), ("exit_code", JVal.num (-4))] ∧
     (Pycodex.dispatchToolCall (fun _ _ => false) (fun _ => ExecOutcome.ok [])
        "shell_exec" (some [("command", JVal.str "ls")])).invoked = false) ∧
    ((Pycodex.dispatchToolCall (fun _ _ => false) (fun _ => ExecOutcome.ok [])
        "read_file" (some [("path", JVal.str "a.txt")])).prompt = none ∧
     (Pycodex.dispatchToolCall (fun _ _ => false) (fun _ => ExecOutcome.ok [])
        "read_file" (some [("path", JVal.str "a.txt")])).invoked = true) :=
  ⟨(C1_denied_dangerous_and_prompt_free_safe (fun _ => ExecOutcome.ok [])
      "execute_shell_command" [("command", JVal.str "ls")]).1
      (by decide) (fun _ _ => false) (fun _ _ => rfl),
   (C1_denied_dangerous_and_prompt_free_safe (fun _ => ExecOutcome.ok [])
      "read_file" [("path", JVal.str "a.txt")]).2.1
      (by decide) (by decide) (fun _ _ => false),
   (C1_denied_dangerous_and_prompt_free_safe (fun _ => ExecOutcome.ok [])
      "shell_exec" [("command", JVal.str "ls")]).2.2.1
      (by decide) (fun _ _ => false) (fun _ _ => rfl),
   (C1_denied_dangerous_and_prompt_free_safe (fun _ => ExecOutcome.ok [])
      "read_file" [("path", JVal.str "a.txt")]).2.2.2
      (by decide) (by decide) (fun _ _ => false)⟩

/-- C3 counterexample: a call whose arguments fail to parse but whose
tool name is unregistered gets the -6 "Unsupported function" envelope,
not the -5 invalid-arguments envelope the claim requires regardless of
registration — the registry-lookup branch is tested first. -/
theorem C3_parse_counterexample :
    (Toyagent.dispatchToolCall (fun _ _ => true) (fun _ => ExecOutcome.ok [])
        "no_such_tool" none).content =
      [("error", JVal.str "Unsupported function: no_such_tool"),
       ("exit_code", JVal.num (-6))] ∧
    getKey (Toyagent.dispatchToolCall (fun _ _ => true) (fun _ => ExecOutcome.ok [])
        "no_such_tool" none).content "exit_code" ≠ some (JVal.num (-5)) ∧
    getKey (Pycodex.dispatchToolCall (fun _ _ => true) (fun _ => ExecOutcome.ok [])
        "no_such_tool" none).content "exit_code" ≠ some (JVal.num (-5)) := by
  decide

/-- C3 amended: a tool call whose raw argument payload fails to parse
never invokes an executor, and — when its tool name is registered — it
short-circuits with the envelope `{error: "Invalid arguments provided to
tool.", exit_code: -5}`; when the name is unregistered the registry
lookup takes precedence and the envelope is the -6 one. -/
theorem C3_amended_parse_failure (gate : String → JVal → Bool)
    (execB : JObj → ExecOutcome) (name : String) :
    ((Toyagent.dispatchToolCall gate execB name none).invoked = false ∧
     (Pycodex.dispatchToolCall gate execB name none).invoked = false) ∧
    (name ∈ Toyagent.TOOL_EXECUTORS_keys →
      (Toyagent.dispatchToolCall gate execB name none).content =
        [("error", JVal.str "Invalid arguments provided to tool."),
         ("exit_code", JVal.num (-5))]) ∧
    (name ∉ Toyagent.TOOL_EXECUTORS_keys →
      (Toyagent.dispatchToolCall gate execB name none).content =
        [("error", JVal.str ("Unsupported function: " ++ name)),
         ("exit_code", JVal.num (-6))]) ∧
    (name ∈ Pycodex.TOOL_EXECUTORS_keys →
      (Pycodex.dispatchToolCall gate execB name none).content =
        [("error", JVal.str "Invalid arguments provided to tool."),
         ("exit_code", JVal.num (-5))]) ∧
    (name ∉ Pycodex.TOOL_EXECUTORS_keys →
      (Pycodex.dispatchToolCall gate execB name none).content =
        [("error", JVal.str ("Unsupported function: " ++ name)),
         ("exit_code", JVal.num (-6))]) := by
  by_cases h1 : name ∈ Toyagent.TOOL_EXECUTORS_keys <;>
    by_cases h2 : name ∈ Pycodex.TOOL_EXECUTORS_keys <;>
    simp [Toyagent.dispatchToolCall, Pycodex.dispatchToolCall, h1, h2]

/-- C4 counterexample: the `fetch_web_page` timeout envelope carries a
timeout-specific error but no `exit_code` field at all, contradicting
the claimed distinct timeout exit code -1. -/
theorem C4_timeout_counterexample :
    (Toyagent.fetch_web_page "http://example.com/" 10 true HttpOutcome.timeout).1 =
      [("content", JVal.null), ("status_code", JVal.null),
       ("error", JVal.str "Timeout (10s)")] ∧
    getKey (Toyagent.fetch_web_page "http://example.com/" 10 true
        HttpOutcome.timeout).1 "exit_code" = none := by
  decide

/-- C4 amended: every timeout-capable executor returns a normal envelope
with a timeout-specific error message instead of raising; shell
execution additionally sets exit code -1, while Python-code execution
and web fetch set no exit-code field at all. -/
theorem C4_amended_timeout_envelopes (command code pyExe osCwd url : String)
    (wd : Option String) (t : Int) (isDir : String → Bool)
    (hdir : ∀ s, isDir s = true) (hcode : code ≠ "")
    (hurl : pyStartsWith url "http://" = true) :
    Toyagent.execute_shell_command command wd t osCwd isDir SubprocOutcome.timedOut =
      [("stdout", JVal.str ""), ("stderr", JVal.str ""),
       ("exit_code", JVal.num (-1)),
       ("error", JVal.str ("Timeout (" ++ toString t ++ "s)"))] ∧
    Pycodex.execute_shell_command command wd t osCwd isDir SubprocOutcome.timedOut =
      [("stdout", JVal.str ""), ("stderr", JVal.str ""),
       ("exit_code", JVal.num (-1)),
       ("error", JVal.str ("Command timed out after " ++ toString t ++ " seconds."))] ∧
    Toyagent.execute_python_code code t pyExe SubprocOutcome.timedOut =
      [("stdout", JVal.null), ("stderr", JVal.null),
       ("error", JVal.str ("Python code execution timed out after " ++ toString t ++ " seconds."))] ∧
    hasKey (Toyagent.execute_python_code code t pyExe SubprocOutcome.timedOut) "exit_code" = false ∧
    Toyagent.fetch_web_page url t true HttpOutcome.timeout =
      ([("content", JVal.null), ("status_code", JVal.null),
        ("error", JVal.str ("Timeout (" ++ toString t ++ "s)"))], true) ∧
    hasKey (Toyagent.fetch_web_page url t true HttpOutcome.timeout).1 "exit_code" = false ∧
    Pycodex.fetch_web_page url t true HttpOutcome.timeout =
      ([("content", JVal.null), ("status_code", JVal.null),
        ("error", JVal.str ("Request timed out after " ++ toString t ++ " seconds."))], true) ∧
    hasKey (Pycodex.fetch_web_page url t true HttpOutcome.timeout).1 "exit_code" = false := by
  refine ⟨?_, ?_, ?_, ?_, ?_, ?_, ?_, ?_⟩ <;>
    simp +decide [Toyagent.execute_shell_command, Pycodex.execute_shell_command,
      Toyagent.execute_python_code, Toyagent.fetch_web_page, Pycodex.fetch_web_page,
      hdir, hcode, hurl, setKey, hasKey]

/-- C4 witness: concrete timeouts — a 1-second shell timeout, a Python
snippet timeout and a web-fetch timeout — produce the amended envelopes. -/
theorem C4_timeout_witness :
    Toyagent.execute_shell_command "sleep 5" none 1 "/" (fun _ => true)
        SubprocOutcome.timedOut =
      [("stdout", JVal.str ""), ("stderr", JVal.str ""),
       ("exit_code", JVal.num (-1)),
       ("error", JVal.str ("Timeout (" ++ toString (1 : Int) ++ "s)"))] :=
  (C4_amended_timeout_envelopes "sleep 5" "print(1)" "/usr/bin/python3" "/"
    "http://example.com" none 1 (fun _ => true) (fun _ => rfl)
    (by decide) (by decide)).1

/-- C5 counterexample: a dangerous call (`write_file`) whose designated
detail key (`path`) is absent is presented to the gate with the literal
placeholder `"<missing detail>"`, not with the serialized full argument
set as the claim states. -/
theorem C5_detail_counterexample :
    (Toyagent.dispatchToolCall (fun _ _ => false) (fun _ => ExecOutcome.ok [])
        "write_file" (some [("content", JVal.str "hi")])).prompt =
      some ("Write to File", JVal.str "<missing detail>") ∧
    JVal.str "<missing detail>" ≠
      JVal.str (dumpsObj [("content", JVal.str "hi")]) := by
  decide

/-- The `(name, action label, detail key, placeholder)` constants of the
hard-coded approval chain of `pycodex.process_api_response` lines
174–185, for stating C5 over all four keyed branches at once. -/
def Pycodex.APPROVAL_CHAIN : List (String × String × String × String) :=
  [("shell_exec", "Execute Shell Command", "command", "<missing command>"),
   ("write_file", "Write to File", "path", "<missing path>"),
   ("create_directory", "Create Directory", "path", "<missing path>"),
   ("fetch_web_page", "Fetch Web Page", "url", "<missing url>")]

/-- C5 amended: when the descriptor's designated argument key is present
in the parsed arguments, the detail presented to the Approval Gate is
its value if that value is a string — and for `execute_python_code` the
present value is shown even when it is not a string — but for the other
toyagent dangerous tools a present non-string value is replaced by the
serialized full argument set; when the key is absent the detail is a
literal placeholder string (`"<missing detail>"` in toyagent, a per-tool
`"<missing …>"` string in pycodex), not the full argument set.  Pycodex
passes any present value through unchanged, and only its `copy_file`
(dangerous but missing from its approval chain) always shows the
serialized full argument set. -/
theorem C5_amended_detail_extraction (gate : String → JVal → Bool)
    (execB : JObj → ExecOutcome) (args : JObj) :
    (∀ name desc key, (name, desc, key) ∈ Toyagent.DANGEROUS_TOOL_INFO →
      (∀ s, getKey args key = some (JVal.str s) →
        (Toyagent.dispatchToolCall gate execB name (some args)).prompt =
          some (desc, JVal.str s)) ∧
      (∀ v, getKey args key = some v → (∀ s, v ≠ JVal.str s) →
          name ≠ "execute_python_code" →
        (Toyagent.dispatchToolCall gate execB name (some args)).prompt =
          some (desc, JVal.str (dumpsObj args))) ∧
      (∀ v, getKey args key = some v → name = "execute_python_code" →
        (Toyagent.dispatchToolCall gate execB name (some args)).prompt =
          some (desc, v)) ∧
      (getKey args key = none →
        (Toyagent.dispatchToolCall gate execB name (some args)).prompt =
          some (desc, JVal.str "<missing detail>"))) ∧
    (∀ name desc key ph, (name, desc, key, ph) ∈ Pycodex.APPROVAL_CHAIN →
      (∀ v, getKey args key = some v →
        (Pycodex.dispatchToolCall gate execB name (some args)).prompt =
          some (desc, v)) ∧
      (getKey args key = none →
        (Pycodex.dispatchToolCall gate execB name (some args)).prompt =
          some (desc, JVal.str ph))) ∧
    (Pycodex.dispatchToolCall gate execB "copy_file" (some args)).prompt =
      some ("Execute copy_file", JVal.str (dumpsObj args)) := by
  refine ⟨?_, ?_, ?_⟩
  · intro name desc key hmem
    refine ⟨fun s h => ?_, fun v h hv hne => ?_, fun v h hpy => ?_, fun h => ?_⟩
    · revert h
      fin_cases hmem <;>
        (intro h
         rw [Toyagent.toyagent_dispatch_prompt_of_dangerous gate execB _ args (by decide) (by decide)]
         simp +decide [Toyagent.approvalRequest, Toyagent.lookupInfo,
           Toyagent.DANGEROUS_TOOL_INFO, List.find?, h])
    · revert h hne
      fin_cases hmem <;>
        (intro h hne
         first
           | exact absurd rfl hne
           | (rcases v with s' | n | b | _ <;>
               first
                 | exact absurd rfl (hv _)
                 | (rw [Toyagent.toyagent_dispatch_prompt_of_dangerous gate execB _ args
                      (by decide) (by decide)]
                    simp +decide [Toyagent.approvalRequest, Toyagent.lookupInfo,
                      Toyagent.DANGEROUS_TOOL_INFO, List.find?, h])))
    · revert h hpy
      fin_cases hmem <;>
        (intro h hpy
         first
           | exact absurd hpy (by decide)
           | (rw [Toyagent.toyagent_dispatch_prompt_of_dangerous gate execB _ args
                (by decide) (by decide)]
              simp +decide [Toyagent.approvalRequest, Toyagent.lookupInfo,
                Toyagent.DANGEROUS_TOOL_INFO, List.find?, h]))
    · revert h
      fin_cases hmem <;>
        (intro h
         rw [Toyagent.toyagent_dispatch_prompt_of_dangerous gate execB _ args (by decide) (by decide)]
         simp +decide [Toyagent.approvalRequest, Toyagent.lookupInfo,
           Toyagent.DANGEROUS_TOOL_INFO, List.find?, h])
  · intro name desc key ph hmem
    refine ⟨fun v h => ?_, fun h => ?_⟩ <;>
      revert h <;>
      fin_cases hmem <;>
        (intro h
         rw [Pycodex.pycodex_dispatch_prompt_of_dangerous gate execB _ args (by decide) (by decide)]
         simp +decide [Pycodex.approvalRequest, h])
  · rw [Pycodex.pycodex_dispatch_prompt_of_dangerous gate execB _ args (by decide) (by decide)]
    simp +decide [Pycodex.approvalRequest]

/-- C5 witness: at concrete calls, a present string value is shown
verbatim and a present non-string value makes toyagent show the
serialized full argument set. -/
theorem C5_detail_witness :
    (Toyagent.dispatchToolCall (fun _ _ => false) (fun _ => ExecOutcome.ok [])
        "write_file" (some [("path", JVal.str "/tmp/x")])).prompt =
      some ("Write to File", JVal.str "/tmp/x") ∧
    (Toyagent.dispatchToolCall (fun _ _ => false) (fun _ => ExecOutcome.ok [])
        "write_file" (some [("path", JVal.num 5)])).prompt =
      some ("Write to File", JVal.str (dumpsObj [("path", JVal.num 5)])) :=
  ⟨((C5_amended_detail_extraction (fun _ _ => false) (fun _ => ExecOutcome.ok [])
      [("path", JVal.str "/tmp/x")]).1
      "write_file" "Write to File" "path" (by decide)).1 "/tmp/x" (by decide),
   ((C5_amended_detail_extraction (fun _ _ => false) (fun _ => ExecOutcome.ok [])
      [("path", JVal.num 5)]).1
      "write_file" "Write to File" "path" (by decide)).2.1 (JVal.num 5) (by decide)
      (fun _ hs => JVal.noConfusion hs) (by decide)⟩

/-- C2 counterexample: on the operator input sequence `["maybe", "y"]`
the gate re-prompts on the non-affirmative token `"maybe"` — consuming
further input instead of denying — and then returns approval, so a
non-affirmative token is not treated as a denial as the claim states. -/
theorem C2_gate_counterexample :
    ask_for_approval [InputEvent.line "maybe", InputEvent.line "y"] = true ∧
    normTok "maybe" ≠ "y" ∧ normTok "maybe" ≠ "n" ∧ normTok "maybe" ≠ "" := by
  decide

/-- C2 amended: the gate approves exactly when the input stream reaches
a line whose lowercased, stripped token is `"y"` with every earlier
event being a line holding a token that is neither `"y"` nor `"n"` nor
empty (such tokens re-prompt rather than deny).  Consequently `"y"` is
the only approving token; an `"n"` line, an empty line, end-of-input,
an interrupt, or an exhausted stream all yield denial (fail-closed). -/
theorem C2_amended_gate_approval (evts : List InputEvent) :
    ask_for_approval evts = true ↔
      ∃ pre s tail, evts = pre ++ InputEvent.line s :: tail ∧ normTok s = "y" ∧
        ∀ e ∈ pre, ∃ t, e = InputEvent.line t ∧
          normTok t ≠ "y" ∧ normTok t ≠ "n" ∧ normTok t ≠ "" := by
  induction evts with
  | nil =>
      constructor
      · intro h
        simp [ask_for_approval] at h
      · rintro ⟨pre, s, tail, heq, -, -⟩
        exact absurd heq.symm (by simp)
  | cons e rest ih =>
      cases e with
      | eof =>
          constructor
          · intro h
            simp [ask_for_approval] at h
          · rintro ⟨pre, s, tail, heq, hy, hpre⟩
            exfalso
            cases pre with
            | nil =>
                rw [List.nil_append] at heq
                injection heq with h1 h2
                exact InputEvent.noConfusion h1
            | cons p pre' =>
                obtain ⟨t, ht, -, -, -⟩ := hpre p (List.mem_cons_self p pre')
                rw [List.cons_append] at heq
                injection heq with h1 h2
                rw [← h1] at ht
                exact InputEvent.noConfusion ht
      | interrupt =>
          constructor
          · intro h
            simp [ask_for_approval] at h
          · rintro ⟨pre, s, tail, heq, hy, hpre⟩
            exfalso
            cases pre with
            | nil =>
                rw [List.nil_append] at heq
                injection heq with h1 h2
                exact InputEvent.noConfusion h1
            | cons p pre' =>
                obtain ⟨t, ht, -, -, -⟩ := hpre p (List.mem_cons_self p pre')
                rw [List.cons_append] at heq
                injection heq with h1 h2
                rw [← h1] at ht
                exact InputEvent.noConfusion ht
      | line s0 =>
          by_cases hy0 : normTok s0 = "y"
          · constructor
            · intro _
              exact ⟨[], s0, rest, rfl, hy0, by simp⟩
            · intro _
              simp [ask_for_approval, hy0]
          · by_cases hn0 : normTok s0 = "n" ∨ normTok s0 = ""
            · constructor
              · intro h
                exfalso
                simp [ask_for_approval, hy0, hn0] at h
              · rintro ⟨pre, s, tail, heq, hy, hpre⟩
                exfalso
                cases pre with
                | nil =>
                    rw [List.nil_append] at heq
                    injection heq with h1 h2
                    injection h1 with h1'
                    subst h1'
                    exact hy0 hy
                | cons p pre' =>
                    obtain ⟨t, ht, -, htn, hte⟩ := hpre p (List.mem_cons_self p pre')
                    rw [List.cons_append] at heq
                    injection heq with h1 h2
                    rw [← h1] at ht
                    injection ht with ht'
                    subst ht'
                    rcases hn0 with hn | he
                    · exact htn hn
                    · exact hte he
            · have hstep : ask_for_approval (InputEvent.line s0 :: rest) =
                  ask_for_approval rest := by
                simp [ask_for_approval, hy0, hn0]
              rw [hstep, ih]
              push_neg at hn0
              constructor
              · rintro ⟨pre, s, tail, heq, hy, hpre⟩
                refine ⟨InputEvent.line s0 :: pre, s, tail, by rw [heq, List.cons_append], hy, ?_⟩
                intro e he
                rcases List.mem_cons.mp he with rfl | hmem
                · exact ⟨s0, rfl, hy0, hn0.1, hn0.2⟩
                · exact hpre e hmem
              · rintro ⟨pre, s, tail, heq, hy, hpre⟩
                cases pre with
                | nil =>
                    rw [List.nil_append] at heq
                    injection heq with h1 h2
                    injection h1 with h1'
                    subst h1'
                    exact absurd hy hy0
                | cons p pre' =>
                    rw [List.cons_append] at heq
                    injection heq with h1 h2
                    exact ⟨pre', s, tail, h2, hy,
                      fun e he => hpre e (List.mem_cons_of_mem p he)⟩

/-- C6: every operation of the Conversation Driver leaves previously
recorded history messages unchanged — after `process_api_response` the
history equals the prior history with zero or more messages appended at
the end; no message is mutated or removed. -/
theorem C6_history_append_only (gate : String → JVal → Bool)
    (execB : String → JObj → ExecOutcome)
    (history : List Message) (r : AssistantMsg) :
    (∃ suffix, (Toyagent.process_api_response gate execB history r).1 = history ++ suffix) ∧
    (∃ suffix, (Pycodex.process_api_response gate execB history r).1 = history ++ suffix) := by
  constructor
  · by_cases h : r.tool_calls.isEmpty
    · exact ⟨[Message.assistant r.content r.tool_calls],
        by simp [Toyagent.process_api_response, h]⟩
    · exact ⟨[Message.assistant r.content r.tool_calls] ++
          r.tool_calls.map (fun tc =>
            Message.tool tc.id tc.name
              (dumpsObj (Toyagent.dispatchToolCall gate (execB tc.name) tc.name tc.args).content)),
        by simp [Toyagent.process_api_response, h]⟩
  · by_cases h : r.tool_calls.isEmpty
    · exact ⟨[Message.assistant r.content r.tool_calls],
        by simp [Pycodex.process_api_response, h]⟩
    · exact ⟨[Message.assistant r.content r.tool_calls] ++
          r.tool_calls.map (fun tc =>
            Message.tool tc.id tc.name
              (dumpsObj (Pycodex.dispatchToolCall gate (execB tc.name) tc.name tc.args).content)),
        by simp [Pycodex.process_api_response, h]⟩

/-- C7: an assistant message with `n ≥ 1` tool calls yields exactly `n`
appended `tool` messages, in the model's listed order, each carrying the
`tool_call_id` and name of its originating request, and the driver
signals "continue" (`True`); with no tool calls it signals "done"
(`False`).  The appended block is literally the ordered `map` of the
request list, so counts, order and ids all correspond one-to-one. -/
theorem C7_tool_results_in_order (gate : String → JVal → Bool)
    (execB : String → JObj → ExecOutcome)
    (history : List Message) (r : AssistantMsg) :
    (∃ f : ToolCall → String,
      (Toyagent.process_api_response gate execB history r).1 =
        history ++ [Message.assistant r.content r.tool_calls] ++
          r.tool_calls.map (fun tc => Message.tool tc.id tc.name (f tc))) ∧
    ((Toyagent.process_api_response gate execB history r).2 = !r.tool_calls.isEmpty) ∧
    (∃ f : ToolCall → String,
      (Pycodex.process_api_response gate execB history r).1 =
        history ++ [Message.assistant r.content r.tool_calls] ++
          r.tool_calls.map (fun tc => Message.tool tc.id tc.name (f tc))) ∧
    ((Pycodex.process_api_response gate execB history r).2 = !r.tool_calls.isEmpty) := by
  refine ⟨⟨fun tc => dumpsObj (Toyagent.dispatchToolCall gate (execB tc.name) tc.name tc.args).content, ?_⟩, ?_,
    ⟨fun tc => dumpsObj (Pycodex.dispatchToolCall gate (execB tc.name) tc.name tc.args).content, ?_⟩, ?_⟩ <;>
    by_cases h : r.tool_calls.isEmpty <;>
    simp_all [Toyagent.process_api_response, Pycodex.process_api_response,
      List.isEmpty_iff]

/-- C8: when the model call fails (connection, auth, rate-limit, status
or any other API error), one driver-loop iteration signals "done" and
returns the history exactly as it was — no synthetic assistant message is
appended, so re-invoking with the same history is a valid retry. -/
theorem C8_api_failure_leaves_history (gate : String → JVal → Bool)
    (execB : String → JObj → ExecOutcome)
    (history : List Message) (outcome : Toyagent.ApiOutcome)
    (hfail : ∀ r, outcome ≠ Toyagent.ApiOutcome.success r) :
    Toyagent.run_loop_iteration gate execB history outcome = (history, false) ∧
    Pycodex.run_loop_iteration gate execB history outcome = (history, false) := by
  cases outcome with
  | success r => exact absurd rfl (hfail r)
  | connectionError m =>
      exact ⟨rfl, rfl⟩
  | rateLimitError m => exact ⟨rfl, rfl⟩
  | authenticationError m => exact ⟨rfl, rfl⟩
  | statusError m => exact ⟨rfl, rfl⟩
  | otherError m => exact ⟨rfl, rfl⟩

/-- C8 witness: a connection error at a concrete history leaves it
untouched and ends the turn. -/
theorem C8_api_failure_witness :
    Toyagent.run_loop_iteration (fun _ _ => true) (fun _ _ => ExecOutcome.ok [])
      [Message.user "hi"] (Toyagent.ApiOutcome.connectionError "boom") =
      ([Message.user "hi"], false) ∧
    Pycodex.run_loop_iteration (fun _ _ => true) (fun _ _ => ExecOutcome.ok [])
      [Message.user "hi"] (Toyagent.ApiOutcome.connectionError "boom") =
      ([Message.user "hi"], false) :=
  C8_api_failure_leaves_history (fun _ _ => true) (fun _ _ => ExecOutcome.ok [])
    [Message.user "hi"] (Toyagent.ApiOutcome.connectionError "boom")
    (fun _ h => Toyagent.ApiOutcome.noConfusion h)

/-- C9: a well-formed tool call naming a tool that is not in the
dispatching program's own executor registry produces the envelope
`{error: "Unsupported function: <name>", exit_code: -6}` and no executor
is invoked (nor any approval prompt shown) — each program conditioned on
its own registry, so names registered in only the other program (such as
pycodex dispatching `execute_python_code`, or toyagent dispatching
`shell_exec`) are covered. -/
theorem C9_unsupported_function (gate : String → JVal → Bool)
    (execB : JObj → ExecOutcome) (name : String) (args : JObj) :
    (name ∉ Toyagent.TOOL_EXECUTORS_keys →
      Toyagent.dispatchToolCall gate execB name (some args) =
        { content := [("error", JVal.str ("Unsupported function: " ++ name)),
                      ("exit_code", JVal.num (-6))],
          invoked := false, prompt := none }) ∧
    (name ∉ Pycodex.TOOL_EXECUTORS_keys →
      Pycodex.dispatchToolCall gate execB name (some args) =
        { content := [("error", JVal.str ("Unsupported function: " ++ name)),
                      ("exit_code", JVal.num (-6))],
          invoked := false, prompt := none }) := by
  constructor
  · intro h1
    unfold Toyagent.dispatchToolCall
    rw [if_pos h1]
  · intro h2
    unfold Pycodex.dispatchToolCall
    rw [if_neg h2]

/-- C9 witness: pycodex dispatching `"execute_python_code"` (registered
only in toyagent) and toyagent dispatching `"shell_exec"` (registered
only in pycodex) both yield the -6 envelope, as does a name registered
in neither. -/
theorem C9_unsupported_function_witness :
    Pycodex.dispatchToolCall (fun _ _ => true) (fun _ => ExecOutcome.ok [])
      "execute_python_code" (some [("code", JVal.str "print(1)")]) =
      { content := [("error", JVal.str "Unsupported function: execute_python_code"),
                    ("exit_code", JVal.num (-6))],
        invoked := false, prompt := none } ∧
    Toyagent.dispatchToolCall (fun _ _ => true) (fun _ => ExecOutcome.ok [])
      "shell_exec" (some [("command", JVal.str "ls")]) =
      { content := [("error", JVal.str "Unsupported function: shell_exec"),
                    ("exit_code", JVal.num (-6))],
        invoked := false, prompt := none } ∧
    Toyagent.dispatchToolCall (fun _ _ => true) (fun _ => ExecOutcome.ok [])
      "frobnicate" (some [("x", JVal.num 1)]) =
      { content := [("error", JVal.str "Unsupported function: frobnicate"),
                    ("exit_code", JVal.num (-6))],
        invoked := false, prompt := none } :=
  ⟨(C9_unsupported_function (fun _ _ => true) (fun _ => ExecOutcome.ok [])
      "execute_python_code" [("code", JVal.str "print(1)")]).2 (by decide),
   (C9_unsupported_function (fun _ _ => true) (fun _ => ExecOutcome.ok [])
      "shell_exec" [("command", JVal.str "ls")]).1 (by decide),
   (C9_unsupported_function (fun _ _ => true) (fun _ => ExecOutcome.ok [])
      "frobnicate" [("x", JVal.num 1)]).1 (by decide)⟩

/-- C10: `fetch_web_page` on a url that starts with neither `http://`
nor `https://` returns `{content: null, status_code: null, error: "URL
must start with http:// or https://"}` without reaching `requests.get`;
and when the `requests` library is unavailable it likewise returns an
error envelope without any request, rather than raising. -/
theorem C10_fetch_scheme_and_library_guards (url url2 : String)
    (t t2 : Int) (http http2 : HttpOutcome)
    (h1 : pyStartsWith url "http://" = false)
    (h2 : pyStartsWith url "https://" = false) :
    Toyagent.fetch_web_page url t true http =
      ([("content", JVal.null), ("status_code", JVal.null),
        ("error", JVal.str "URL must start with http:// or https://")], false) ∧
    Pycodex.fetch_web_page url t true http =
      ([("content", JVal.null), ("status_code", JVal.null),
        ("error", JVal.str "URL must start with http:// or https://")], false) ∧
    Toyagent.fetch_web_page url2 t2 false http2 =
      ([("content", JVal.null), ("status_code", JVal.null),
        ("error", JVal.str "'requests' library not installed.")], false) ∧
    Pycodex.fetch_web_page url2 t2 false http2 =
      ([("content", JVal.null), ("status_code", JVal.null),
        ("error", JVal.str "The 'requests' library is not installed.")], false) := by
  refine ⟨?_, ?_, ?_, ?_⟩
  · simp [Toyagent.fetch_web_page, h1, h2]
  · simp [Pycodex.fetch_web_page, h1, h2, setKey]
  · simp [Toyagent.fetch_web_page]
  · simp [Pycodex.fetch_web_page, setKey]

/-- C10 witness: a concrete non-http url (`"ftp://host/x"`) and the
library-unavailable case both yield the guarded error envelopes. -/
theorem C10_fetch_guards_witness :
    Toyagent.fetch_web_page "ftp://host/x" 10 true HttpOutcome.timeout =
      ([("content", JVal.null), ("status_code", JVal.null),
        ("error", JVal.str "URL must start with http:// or https://")], false) ∧
    Pycodex.fetch_web_page "ftp://host/x" 10 true HttpOutcome.timeout =
      ([("content", JVal.null), ("status_code", JVal.null),
        ("error", JVal.str "URL must start with http:// or https://")], false) ∧
    Toyagent.fetch_web_page "http://host/x" 5 false HttpOutcome.timeout =
      ([("content", JVal.null), ("status_code", JVal.null),
        ("error", JVal.str "'requests' library not installed.")], false) ∧
    Pycodex.fetch_web_page "http://host/x" 5 false HttpOutcome.timeout =
      ([("content", JVal.null), ("status_code", JVal.null),
        ("error", JVal.str "The 'requests' library is not installed.")], false) :=
  C10_fetch_scheme_and_library_guards "ftp://host/x" "http://host/x" 10 5
    HttpOutcome.timeout HttpOutcome.timeout (by decide) (by decide)

end ToyAgentSpec
